import Mathlib

/-!
Verification of the manager-team reconciliation and scoring-analysis engine of
the fantasy-football dashboard (src/views/manager_analysis.py, src/app.py,
src/utils/load_fpl_features.py).

The historical store is the dataframe produced by `load_player_data`:
columns `player_name, gw, goals_scored, assists, total_points, now_cost`
plus loader-derived `goal_contributions = goals_scored + assists` (and
`clean_sheets, goals_conceded, saves, points_per_million, form`, which the
engine never reads).  All numeric columns are modelled as exact rationals.
-/

namespace FplDash

structure StatRow where
  player_name : String
  gw : Nat
  goals_scored : ℚ
  assists : ℚ
  total_points : ℚ
  now_cost : ℚ
  deriving Repr, DecidableEq

def goal_contributions (r : StatRow) : ℚ := r.goals_scored + r.assists

structure PlayerInfo where
  web_name : String
  team_code : Nat
  deriving Repr, DecidableEq

structure Pick where
  element : Nat
  position : Nat
  element_type : Nat
  is_captain : Bool
  is_vice_captain : Bool
  multiplier : ℚ
  deriving Repr, DecidableEq

abbrev StatDict := List (String × ℚ)

def dget (d : StatDict) (k : String) (dflt : ℚ) : ℚ :=
  match d with
  | [] => dflt
  | p :: rest => if p.1 == k then p.2 else dget rest k dflt

def lookupPlayer (pm : List (Nat × PlayerInfo)) (i : Nat) : Option PlayerInfo :=
  match pm with
  | [] => none
  | p :: rest => if p.1 == i then some p.2 else lookupPlayer rest i

def resolveName (pm : List (Nat × PlayerInfo)) (i : Nat) : String :=
  match lookupPlayer pm i with
  | some info => info.web_name
  | none => "Player_" ++ toString i

def resolveTeam (teams : List (Nat × String)) (code : Nat) : String :=
  match teams with
  | [] => "Unknown"
  | p :: rest => if p.1 == code then p.2 else resolveTeam rest code

def POSITION_MAP (t : Nat) : String :=
  if t = 1 then "GK"
  else if t = 2 then "DEF"
  else if t = 3 then "MID"
  else if t = 4 then "FWD"
  else "Unknown"

def qmean (l : List ℚ) : ℚ := l.sum / l.length

def charListLt : List Char → List Char → Bool
  | [], [] => false
  | [], _ :: _ => true
  | _ :: _, [] => false
  | c :: cs, d :: ds =>
    if c.toNat < d.toNat then true
    else if d.toNat < c.toNat then false
    else charListLt cs ds

def strLt (a b : String) : Bool := charListLt a.data b.data

def insertGwDesc (r : StatRow) : List StatRow → List StatRow
  | [] => [r]
  | s :: rest => if r.gw ≥ s.gw then r :: s :: rest else s :: insertGwDesc r rest

def sortGwDesc : List StatRow → List StatRow
  | [] => []
  | r :: rest => insertGwDesc r (sortGwDesc rest)

def lastCost (history : List StatRow) : ℚ :=
  match history.getLast? with
  | some r => r.now_cost
  | none => 0

def rowDict (r : StatRow) : StatDict :=
  [("gw", (r.gw : ℚ)),
   ("goals_scored", r.goals_scored),
   ("assists", r.assists),
   ("total_points", r.total_points),
   ("now_cost", r.now_cost),
   ("goal_contributions", goal_contributions r)]

def fallbackDict (history : List StatRow) : StatDict :=
  let recent := (sortGwDesc history).take 3
  [("goals_scored", qmean (recent.map (fun r => r.goals_scored))),
   ("assists", qmean (recent.map (fun r => r.assists))),
   ("total_points", qmean (recent.map (fun r => r.total_points))),
   ("value", lastCost history),
   ("goal_contributions",
      qmean (recent.map (fun r => r.goals_scored))
        + qmean (recent.map (fun r => r.assists)))]

def zeroDict : StatDict :=
  [("goals_scored", 0), ("assists", 0), ("total_points", 0),
   ("value", 0), ("goal_contributions", 0)]

def playerStats (df : List StatRow) (name : String) (gw : Nat) : StatDict :=
  match df.filter (fun r => r.player_name == name && r.gw == gw) with
  | r :: _ => rowDict r
  | [] =>
    let history := df.filter (fun r => r.player_name == name)
    if history.isEmpty then zeroDict else fallbackDict history

structure AnalysisRow where
  element_id : Nat
  player_name : String
  team : String
  position : String
  position_number : Nat
  is_captain : Bool
  is_vice_captain : Bool
  multiplier : ℚ
  gw_points : ℚ
  goals : ℚ
  assists : ℚ
  goal_contributions : ℚ
  value : ℚ
  in_squad : Bool
  deriving Repr, DecidableEq

def reconcilePick (df : List StatRow) (pm : List (Nat × PlayerInfo))
    (teams : List (Nat × String)) (gw : Nat) (pick : Pick) : AnalysisRow :=
  let name := resolveName pm pick.element
  let stats := playerStats df name gw
  let teamCode := match lookupPlayer pm pick.element with
    | some info => info.team_code
    | none => 0
  { element_id := pick.element
    player_name := name
    team := resolveTeam teams teamCode
    position := POSITION_MAP pick.element_type
    position_number := pick.position
    is_captain := pick.is_captain
    is_vice_captain := pick.is_vice_captain
    multiplier := pick.multiplier
    gw_points := dget stats "total_points" 0
    goals := dget stats "goals_scored" 0
    assists := dget stats "assists" 0
    goal_contributions := dget stats "goal_contributions" 0
    value := dget stats "value" 0
    in_squad := decide (pick.position ≤ 11) }

def insertSlot (r : AnalysisRow) : List AnalysisRow → List AnalysisRow
  | [] => [r]
  | s :: rest =>
    if r.position_number ≤ s.position_number then r :: s :: rest
    else s :: insertSlot r rest

def sortBySlot : List AnalysisRow → List AnalysisRow
  | [] => []
  | r :: rest => insertSlot r (sortBySlot rest)

def analyzeTeam (df : List StatRow) (pm : List (Nat × PlayerInfo))
    (teams : List (Nat × String)) (gw : Nat) (picks : List Pick) :
    Except String (List AnalysisRow) :=
  let rows := picks.map (reconcilePick df pm teams gw)
  if rows.isEmpty then Except.error "KeyError: position_number"
  else Except.ok (sortBySlot rows)

def effPoints (r : AnalysisRow) : ℚ := r.gw_points * r.multiplier

def captainSelect (rows : List AnalysisRow) : Option AnalysisRow :=
  (sortBySlot rows).find? (fun r => r.is_captain)

def argmaxPoints : List AnalysisRow → Option AnalysisRow
  | [] => none
  | r :: rest =>
    match argmaxPoints rest with
    | none => some r
    | some m => if m.gw_points > r.gw_points then some m else some r

structure CaptainVerdict where
  optimal : Bool
  points_diff : ℚ
  deriving DecidableEq

def captainDiag (rows : List AnalysisRow) : Option CaptainVerdict :=
  match rows.find? (fun r => r.is_captain) with
  | none => none
  | some cap =>
    match argmaxPoints rows with
    | none => none
    | some hs =>
      if hs.player_name == cap.player_name then some ⟨true, 0⟩
      else some ⟨false, hs.gw_points * 2 - cap.gw_points * cap.multiplier⟩

def insertKey (k : String) : List String → List String
  | [] => [k]
  | s :: rest =>
    if k == s then s :: rest
    else if strLt k s then k :: s :: rest
    else s :: insertKey k rest

def groupKeys (rows : List AnalysisRow) : List String :=
  rows.foldr (fun r acc => insertKey r.position acc) []

def posSum (rows : List AnalysisRow) (k : String) : ℚ :=
  ((rows.filter (fun r => r.position == k)).map (fun r => r.gw_points)).sum

def pointsByPos (rows : List AnalysisRow) : List (String × ℚ) :=
  (groupKeys rows).map (fun k => (k, posSum rows k))

def argmaxPair : List (String × ℚ) → Option (String × ℚ)
  | [] => none
  | p :: rest =>
    match argmaxPair rest with
    | none => some p
    | some m => if m.2 > p.2 then some m else some p

def bestPosition (rows : List AnalysisRow) : Option String :=
  (argmaxPair (pointsByPos rows)).map Prod.fst

def starters (rows : List AnalysisRow) : List AnalysisRow :=
  rows.filter (fun r => r.in_squad)

def benchOf (rows : List AnalysisRow) : List AnalysisRow :=
  rows.filter (fun r => !r.in_squad)

def meanStarterPoints (rows : List AnalysisRow) : ℚ :=
  qmean ((starters rows).map (fun r => r.gw_points))

def underperformers (rows : List AnalysisRow) : List AnalysisRow :=
  (starters rows).filter
    (fun r => decide (r.gw_points < meanStarterPoints rows * (7 / 10)))

def minPoints : List AnalysisRow → Option ℚ
  | [] => none
  | r :: rest =>
    match minPoints rest with
    | none => some r.gw_points
    | some m => if m < r.gw_points then some m else some r.gw_points

def maxPoints : List AnalysisRow → Option ℚ
  | [] => none
  | r :: rest =>
    match maxPoints rest with
    | none => some r.gw_points
    | some m => if m > r.gw_points then some m else some r.gw_points

structure LineupVerdict where
  suboptimal : Bool
  points_diff : ℚ
  deriving DecidableEq

def lineupCheck (rows : List AnalysisRow) : Option LineupVerdict :=
  match maxPoints (benchOf rows), minPoints (starters rows) with
  | some bp, some sp =>
    if bp > sp then some ⟨true, bp - sp⟩ else some ⟨false, 0⟩
  | _, _ => none

def valueEfficiency (r : AnalysisRow) : ℚ :=
  r.gw_points / (r.value / 10 + 1 / 1000)

def specFallbackPoints (df : List StatRow) (name : String) (gw : Nat) : ℚ :=
  let eligible := df.filter (fun r => r.player_name == name && decide (r.gw ≤ gw))
  qmean (((sortGwDesc eligible).take 3).map (fun r => r.total_points))

def specFallbackCost (df : List StatRow) (name : String) (gw : Nat) : ℚ :=
  let eligible := df.filter (fun r => r.player_name == name && decide (r.gw ≤ gw))
  match sortGwDesc eligible with
  | r :: _ => r.now_cost
  | [] => 0

def specEffPosSum (rows : List AnalysisRow) (k : String) : ℚ :=
  ((rows.filter (fun r => r.position == k)).map effPoints).sum

def dfC1 : List StatRow :=
  [{ player_name := "Alpha", gw := 5, goals_scored := 1, assists := 2,
     total_points := 9, now_cost := 50 }]

def pmC1 : List (Nat × PlayerInfo) := [(7, { web_name := "Alpha", team_code := 3 })]

def teamsC1 : List (Nat × String) := [(3, "Reds")]

def pickC1 : Pick :=
  { element := 7, position := 1, element_type := 1,
    is_captain := true, is_vice_captain := false, multiplier := 2 }

def dfC2 : List StatRow :=
  [{ player_name := "Beta", gw := 3, goals_scored := 0, assists := 0,
     total_points := 0, now_cost := 40 },
   { player_name := "Beta", gw := 8, goals_scored := 1, assists := 1,
     total_points := 10, now_cost := 60 }]

def pmC2 : List (Nat × PlayerInfo) := [(9, { web_name := "Beta", team_code := 2 })]

def pickC2 : Pick :=
  { element := 9, position := 1, element_type := 3,
    is_captain := false, is_vice_captain := false, multiplier := 1 }

def mkRow (eid : Nat) (name : String) (pos : String) (slot : Nat)
    (cap : Bool) (mult : ℚ) (pts : ℚ) : AnalysisRow :=
  { element_id := eid, player_name := name, team := "Unknown",
    position := pos, position_number := slot, is_captain := cap,
    is_vice_captain := false, multiplier := mult, gw_points := pts,
    goals := 0, assists := 0, goal_contributions := 0, value := 0,
    in_squad := decide (slot ≤ 11) }

def dfC3 : List StatRow :=
  [{ player_name := "Cap", gw := 5, goals_scored := 0, assists := 0,
     total_points := 5, now_cost := 40 },
   { player_name := "Max", gw := 5, goals_scored := 0, assists := 0,
     total_points := 6, now_cost := 45 }]

def pmC3 : List (Nat × PlayerInfo) :=
  [(1, { web_name := "Cap", team_code := 1 }),
   (2, { web_name := "Max", team_code := 1 }),
   (3, { web_name := "F3", team_code := 1 }),
   (4, { web_name := "F4", team_code := 1 }),
   (5, { web_name := "F5", team_code := 1 }),
   (6, { web_name := "F6", team_code := 1 }),
   (7, { web_name := "F7", team_code := 1 }),
   (8, { web_name := "F8", team_code := 1 }),
   (9, { web_name := "F9", team_code := 1 }),
   (10, { web_name := "F10", team_code := 1 }),
   (11, { web_name := "F11", team_code := 1 }),
   (12, { web_name := "F12", team_code := 1 }),
   (13, { web_name := "F13", team_code := 1 }),
   (14, { web_name := "F14", team_code := 1 }),
   (15, { web_name := "F15", team_code := 1 })]

def picksC3 : List Pick :=
  [{ element := 1, position := 1, element_type := 3, is_captain := true,
     is_vice_captain := false, multiplier := 2 },
   { element := 2, position := 2, element_type := 3, is_captain := false,
     is_vice_captain := false, multiplier := 1 },
   { element := 3, position := 3, element_type := 3, is_captain := false,
     is_vice_captain := false, multiplier := 1 },
   { element := 4, position := 4, element_type := 3, is_captain := false,
     is_vice_captain := false, multiplier := 1 },
   { element := 5, position := 5, element_type := 3, is_captain := false,
     is_vice_captain := false, multiplier := 1 },
   { element := 6, position := 6, element_type := 3, is_captain := false,
     is_vice_captain := false, multiplier := 1 },
   { element := 7, position := 7, element_type := 3, is_captain := false,
     is_vice_captain := false, multiplier := 1 },
   { element := 8, position := 8, element_type := 3, is_captain := false,
     is_vice_captain := false, multiplier := 1 },
   { element := 9, position := 9, element_type := 3, is_captain := false,
     is_vice_captain := false, multiplier := 1 },
   { element := 10, position := 10, element_type := 3, is_captain := false,
     is_vice_captain := false, multiplier := 1 },
   { element := 11, position := 11, element_type := 3, is_captain := false,
     is_vice_captain := false, multiplier := 1 },
   { element := 12, position := 12, element_type := 3, is_captain := false,
     is_vice_captain := false, multiplier := 0 },
   { element := 13, position := 13, element_type := 3, is_captain := false,
     is_vice_captain := false, multiplier := 0 },
   { element := 14, position := 14, element_type := 3, is_captain := false,
     is_vice_captain := false, multiplier := 0 },
   { element := 15, position := 15, element_type := 3, is_captain := false,
     is_vice_captain := false, multiplier := 0 }]

def rowsC3 : List AnalysisRow := sortBySlot (picksC3.map (reconcilePick dfC3 pmC3 [] 5))

def rowsC3w : List AnalysisRow :=
  [mkRow 21 "CapW" "MID" 1 true 2 4, mkRow 22 "StarW" "MID" 2 false 1 6]

def picksC6 : List Pick :=
  ({ element := 1, position := 1, element_type := 1, is_captain := true,
     is_vice_captain := false, multiplier := 2 } : Pick) ::
  ({ element := 2, position := 2, element_type := 2, is_captain := false,
     is_vice_captain := false, multiplier := 1 } : Pick) ::
  picksC3.drop 2

def rowsC6 : List AnalysisRow := sortBySlot (picksC6.map (reconcilePick dfC3 pmC3 [] 5))

def rowsC6w : List AnalysisRow :=
  [mkRow 31 "G" "GK" 1 false 1 2, mkRow 32 "D1" "DEF" 2 false 1 8,
   mkRow 33 "D2" "DEF" 3 false 1 6, mkRow 34 "M" "MID" 4 false 1 10]

def rowsC10 : List AnalysisRow :=
  [mkRow 41 "A" "MID" 9 true 1 3, mkRow 42 "B" "MID" 4 true 1 7,
   mkRow 43 "C" "MID" 1 false 1 2]

def rowsC7 : List AnalysisRow :=
  [mkRow 51 "A" "MID" 1 false 1 13, mkRow 52 "B" "MID" 2 false 1 10,
   mkRow 53 "C" "MID" 3 false 1 7]

def rowsC8 : List AnalysisRow :=
  [mkRow 61 "S1" "MID" 1 false 1 5, mkRow 62 "S2" "MID" 2 false 1 8,
   mkRow 63 "B1" "MID" 12 false 0 9]

def rowsC8b : List AnalysisRow :=
  [mkRow 64 "S1" "MID" 1 false 1 5, mkRow 65 "S2" "MID" 2 false 1 8,
   mkRow 66 "B1" "MID" 12 false 0 5]

def dfC9 : List StatRow :=
  [{ player_name := "Other", gw := 3, goals_scored := 0, assists := 0,
     total_points := 2, now_cost := 30 }]

def pmC9 : List (Nat × PlayerInfo) := [(5, { web_name := "Ghost", team_code := 1 })]

def pickC9 : Pick :=
  { element := 5, position := 12, element_type := 4,
    is_captain := false, is_vice_captain := false, multiplier := 0 }

/-! ## Lemmas and claim theorems -/

theorem C1_exact_match_cost_dropped :
    (reconcilePick dfC1 pmC1 teamsC1 5 pickC1).gw_points = 9 ∧
    (reconcilePick dfC1 pmC1 teamsC1 5 pickC1).goals = 1 ∧
    (reconcilePick dfC1 pmC1 teamsC1 5 pickC1).assists = 2 ∧
    (reconcilePick dfC1 pmC1 teamsC1 5 pickC1).goal_contributions = 3 ∧
    (reconcilePick dfC1 pmC1 teamsC1 5 pickC1).value = 0 ∧
    (dfC1.map (fun r => r.now_cost) = [50]) ∧
    (reconcilePick dfC1 pmC1 teamsC1 5 pickC1).value ≠ 50 := by
  refine ⟨?_, ?_, ?_, ?_, ?_, ?_, ?_⟩ <;>
    · norm_num [reconcilePick, playerStats, resolveName, lookupPlayer,
        resolveTeam, POSITION_MAP, rowDict, dget, goal_contributions,
        dfC1, pmC1, teamsC1, pickC1, List.filter, List.find?]
      try decide

theorem C4_empty_picks_raises :
    analyzeTeam [] [] [] 1 [] = Except.error "KeyError: position_number" := rfl

theorem C5_effective_points_and_lineup_flag (df : List StatRow)
    (pm : List (Nat × PlayerInfo)) (teams : List (Nat × String))
    (gw : Nat) (pick : Pick) :
    (reconcilePick df pm teams gw pick).in_squad = decide (pick.position ≤ 11) ∧
    (reconcilePick df pm teams gw pick).position_number = pick.position ∧
    (reconcilePick df pm teams gw pick).multiplier = pick.multiplier ∧
    effPoints (reconcilePick df pm teams gw pick) =
      (reconcilePick df pm teams gw pick).gw_points * pick.multiplier :=
  ⟨rfl, rfl, rfl, rfl⟩

lemma playerStats_no_history (df : List StatRow) (name : String) (gw : Nat)
    (h : ∀ r ∈ df, r.player_name ≠ name) :
    playerStats df name gw = zeroDict := by
  have hname : ∀ r ∈ df, (r.player_name == name) = false := by
    intro r hr
    simp [h r hr]
  have h1 : df.filter (fun r => r.player_name == name && r.gw == gw) = [] := by
    rw [List.filter_eq_nil_iff]
    intro r hr
    simp [hname r hr]
  have h2 : df.filter (fun r => r.player_name == name) = [] := by
    rw [List.filter_eq_nil_iff]
    intro r hr
    simp [hname r hr]
  simp [playerStats, h1, h2]

lemma maxPoints_cons (a : AnalysisRow) (l : List AnalysisRow) :
    maxPoints (a :: l) =
      match maxPoints l with
      | none => some a.gw_points
      | some m => if m > a.gw_points then some m else some a.gw_points := rfl

lemma minPoints_cons (a : AnalysisRow) (l : List AnalysisRow) :
    minPoints (a :: l) =
      match minPoints l with
      | none => some a.gw_points
      | some m => if m < a.gw_points then some m else some a.gw_points := rfl

lemma maxPoints_cons_isSome (b : AnalysisRow) (l : List AnalysisRow) :
    (maxPoints (b :: l)).isSome = true := by
  rw [maxPoints_cons]
  cases maxPoints l with
  | none => rfl
  | some m =>
    dsimp only
    split <;> rfl

lemma minPoints_cons_isSome (b : AnalysisRow) (l : List AnalysisRow) :
    (minPoints (b :: l)).isSome = true := by
  rw [minPoints_cons]
  cases minPoints l with
  | none => rfl
  | some m =>
    dsimp only
    split <;> rfl

lemma maxPoints_spec (l : List AnalysisRow) (h : l ≠ []) :
    ∃ m, maxPoints l = some m ∧ (∃ r ∈ l, r.gw_points = m) ∧
      ∀ r ∈ l, r.gw_points ≤ m := by
  induction l with
  | nil => exact absurd rfl h
  | cons a rest ih =>
    cases hrest : maxPoints rest with
    | none =>
      have hnil : rest = [] := by
        cases rest with
        | nil => rfl
        | cons b r' =>
          have hs := maxPoints_cons_isSome b r'
          rw [hrest] at hs
          simp at hs
      subst hnil
      exact ⟨a.gw_points, by rw [maxPoints_cons, hrest], ⟨a, by simp⟩, by simp⟩
    | some m =>
      have hne : rest ≠ [] := by
        intro h0
        rw [h0] at hrest
        simp [maxPoints] at hrest
      obtain ⟨m', hm', ⟨r0, hr0, hr0e⟩, hub⟩ := ih hne
      rw [hrest] at hm'
      have hEq : m = m' := by injection hm'
      subst hEq
      by_cases hlt : m > a.gw_points
      · refine ⟨m, ?_, ⟨r0, List.mem_cons_of_mem _ hr0, hr0e⟩, ?_⟩
        · rw [maxPoints_cons, hrest]
          simp [hlt]
        · intro r hr
          rcases List.mem_cons.mp hr with h' | h'
          · exact h' ▸ le_of_lt hlt
          · exact hub r h'
      · refine ⟨a.gw_points, ?_, ⟨a, List.mem_cons_self _ _, rfl⟩, ?_⟩
        · rw [maxPoints_cons, hrest]
          simp [hlt]
        · intro r hr
          rcases List.mem_cons.mp hr with h' | h'
          · exact h' ▸ le_refl _
          · exact le_trans (hub r h') (not_lt.mp hlt)

lemma minPoints_spec (l : List AnalysisRow) (h : l ≠ []) :
    ∃ m, minPoints l = some m ∧ (∃ r ∈ l, r.gw_points = m) ∧
      ∀ r ∈ l, m ≤ r.gw_points := by
  induction l with
  | nil => exact absurd rfl h
  | cons a rest ih =>
    cases hrest : minPoints rest with
    | none =>
      have hnil : rest = [] := by
        cases rest with
        | nil => rfl
        | cons b r' =>
          have hs := minPoints_cons_isSome b r'
          rw [hrest] at hs
          simp at hs
      subst hnil
      exact ⟨a.gw_points, by rw [minPoints_cons, hrest], ⟨a, by simp⟩, by simp⟩
    | some m =>
      have hne : rest ≠ [] := by
        intro h0
        rw [h0] at hrest
        simp [minPoints] at hrest
      obtain ⟨m', hm', ⟨r0, hr0, hr0e⟩, hlb⟩ := ih hne
      rw [hrest] at hm'
      have hEq : m = m' := by injection hm'
      subst hEq
      by_cases hlt : m < a.gw_points
      · refine ⟨m, ?_, ⟨r0, List.mem_cons_of_mem _ hr0, hr0e⟩, ?_⟩
        · rw [minPoints_cons, hrest]
          simp [hlt]
        · intro r hr
          rcases List.mem_cons.mp hr with h' | h'
          · exact h' ▸ le_of_lt hlt
          · exact hlb r h'
      · refine ⟨a.gw_points, ?_, ⟨a, List.mem_cons_self _ _, rfl⟩, ?_⟩
        · rw [minPoints_cons, hrest]
          simp [hlt]
        · intro r hr
          rcases List.mem_cons.mp hr with h' | h'
          · exact h' ▸ le_refl _
          · exact le_trans (not_lt.mp hlt) (hlb r h')

theorem C9_no_history_zeroed_and_finite (df : List StatRow)
    (pm : List (Nat × PlayerInfo)) (teams : List (Nat × String))
    (gw : Nat) (pick : Pick)
    (h : ∀ r ∈ df, r.player_name ≠ resolveName pm pick.element) :
    (reconcilePick df pm teams gw pick).gw_points = 0 ∧
    (reconcilePick df pm teams gw pick).goals = 0 ∧
    (reconcilePick df pm teams gw pick).assists = 0 ∧
    (reconcilePick df pm teams gw pick).goal_contributions = 0 ∧
    (reconcilePick df pm teams gw pick).value = 0 ∧
    (reconcilePick df pm teams gw pick).value / 10 + 1 / 1000 ≠ 0 ∧
    valueEfficiency (reconcilePick df pm teams gw pick) = 0 := by
  have hstats := playerStats_no_history df (resolveName pm pick.element) gw h
  have e1 : (reconcilePick df pm teams gw pick).gw_points =
      dget (playerStats df (resolveName pm pick.element) gw) "total_points" 0 := rfl
  have e2 : (reconcilePick df pm teams gw pick).goals =
      dget (playerStats df (resolveName pm pick.element) gw) "goals_scored" 0 := rfl
  have e3 : (reconcilePick df pm teams gw pick).assists =
      dget (playerStats df (resolveName pm pick.element) gw) "assists" 0 := rfl
  have e4 : (reconcilePick df pm teams gw pick).goal_contributions =
      dget (playerStats df (resolveName pm pick.element) gw) "goal_contributions" 0 := rfl
  have e5 : (reconcilePick df pm teams gw pick).value =
      dget (playerStats df (resolveName pm pick.element) gw) "value" 0 := rfl
  have hp : (reconcilePick df pm teams gw pick).gw_points = 0 := by
    rw [e1, hstats]; decide
  have hv : (reconcilePick df pm teams gw pick).value = 0 := by
    rw [e5, hstats]; decide
  refine ⟨hp, ?_, ?_, ?_, hv, ?_, ?_⟩
  · rw [e2, hstats]; decide
  · rw [e3, hstats]; decide
  · rw [e4, hstats]; decide
  · rw [hv]; norm_num
  · rw [valueEfficiency, hv, hp]; norm_num

theorem C7_underperformer_boundary (rows : List AnalysisRow)
    (r : AnalysisRow) (h : starters rows ≠ []) :
    (r ∈ underperformers rows ↔
      r ∈ rows ∧ r.in_squad = true ∧
        r.gw_points < meanStarterPoints rows * (7 / 10)) ∧
    (r.gw_points = meanStarterPoints rows * (7 / 10) →
      r ∉ underperformers rows) := by
  constructor
  · simp only [underperformers, starters, List.mem_filter, decide_eq_true_eq]
    constructor
    · rintro ⟨⟨hr, hs⟩, hlt⟩
      exact ⟨hr, hs, hlt⟩
    · rintro ⟨hr, hs, hlt⟩
      exact ⟨⟨hr, hs⟩, hlt⟩
  · intro heq hmem
    rw [underperformers, List.mem_filter] at hmem
    have h1 : r.gw_points < meanStarterPoints rows * (7 / 10) := by
      have h2 := hmem.2
      rw [decide_eq_true_eq] at h2
      exact h2
    rw [heq] at h1
    exact lt_irrefl _ h1

theorem C8_optimal_lineup_check (rows : List AnalysisRow)
    (h1 : benchOf rows ≠ []) (h2 : starters rows ≠ []) :
    ∃ bp sp,
      maxPoints (benchOf rows) = some bp ∧
      minPoints (starters rows) = some sp ∧
      (∃ r ∈ benchOf rows, r.gw_points = bp) ∧
      (∀ r ∈ benchOf rows, r.gw_points ≤ bp) ∧
      (∃ r ∈ starters rows, r.gw_points = sp) ∧
      (∀ r ∈ starters rows, sp ≤ r.gw_points) ∧
      (bp > sp → lineupCheck rows = some ⟨true, bp - sp⟩) ∧
      (¬ bp > sp → lineupCheck rows = some ⟨false, 0⟩) := by
  obtain ⟨bp, hbp, hbmem, hbub⟩ := maxPoints_spec (benchOf rows) h1
  obtain ⟨sp, hsp, hsmem, hslb⟩ := minPoints_spec (starters rows) h2
  refine ⟨bp, sp, hbp, hsp, hbmem, hbub, hsmem, hslb, ?_, ?_⟩
  · intro hgt
    simp [lineupCheck, hbp, hsp, hgt]
  · intro hle
    simp [lineupCheck, hbp, hsp, hle]

lemma insertGwDesc_perm (r : StatRow) (l : List StatRow) :
    (insertGwDesc r l).Perm (r :: l) := by
  induction l with
  | nil => exact List.Perm.refl _
  | cons s rest ih =>
    rw [insertGwDesc]
    split
    · exact List.Perm.refl _
    · exact List.Perm.trans (List.Perm.cons s ih) (List.Perm.swap r s rest)

lemma sortGwDesc_perm (l : List StatRow) : (sortGwDesc l).Perm l := by
  induction l with
  | nil => exact List.Perm.refl _
  | cons r rest ih =>
    rw [sortGwDesc]
    exact List.Perm.trans (insertGwDesc_perm r (sortGwDesc rest)) (List.Perm.cons r ih)

lemma pairwise_insertGwDesc (r : StatRow) (l : List StatRow)
    (hl : l.Pairwise (fun a b => b.gw ≤ a.gw)) :
    (insertGwDesc r l).Pairwise (fun a b => b.gw ≤ a.gw) := by
  induction l with
  | nil => simp [insertGwDesc]
  | cons s rest ih =>
    rw [insertGwDesc]
    obtain ⟨hs, hrest⟩ := List.pairwise_cons.mp hl
    by_cases hc : r.gw ≥ s.gw
    · rw [if_pos hc]
      refine List.pairwise_cons.mpr ⟨?_, hl⟩
      intro b hb
      rcases List.mem_cons.mp hb with rfl | hb'
      · exact hc
      · exact le_trans (hs b hb') hc
    · rw [if_neg hc]
      refine List.pairwise_cons.mpr ⟨?_, ih hrest⟩
      intro b hb
      have hb' := (insertGwDesc_perm r rest).mem_iff.mp hb
      rcases List.mem_cons.mp hb' with rfl | hb''
      · exact le_of_lt (lt_of_not_le hc)
      · exact hs b hb''

lemma sortGwDesc_sorted (l : List StatRow) :
    (sortGwDesc l).Pairwise (fun a b => b.gw ≤ a.gw) := by
  induction l with
  | nil => simp [sortGwDesc]
  | cons r rest ih => exact pairwise_insertGwDesc r (sortGwDesc rest) ih

lemma sortGwDesc_take_drop (l : List StatRow) (n : Nat) :
    ∀ a ∈ (sortGwDesc l).take n, ∀ b ∈ (sortGwDesc l).drop n, b.gw ≤ a.gw := by
  have h := sortGwDesc_sorted l
  rw [← List.take_append_drop n (sortGwDesc l)] at h
  exact (List.pairwise_append.mp h).2.2

lemma insertSlot_perm (r : AnalysisRow) (l : List AnalysisRow) :
    (insertSlot r l).Perm (r :: l) := by
  induction l with
  | nil => exact List.Perm.refl _
  | cons s rest ih =>
    rw [insertSlot]
    split
    · exact List.Perm.refl _
    · exact List.Perm.trans (List.Perm.cons s ih) (List.Perm.swap r s rest)

lemma sortBySlot_perm (l : List AnalysisRow) : (sortBySlot l).Perm l := by
  induction l with
  | nil => exact List.Perm.refl _
  | cons r rest ih =>
    rw [sortBySlot]
    exact List.Perm.trans (insertSlot_perm r (sortBySlot rest)) (List.Perm.cons r ih)

lemma pairwise_insertSlot (r : AnalysisRow) (l : List AnalysisRow)
    (hl : l.Pairwise (fun a b => a.position_number ≤ b.position_number)) :
    (insertSlot r l).Pairwise (fun a b => a.position_number ≤ b.position_number) := by
  induction l with
  | nil => simp [insertSlot]
  | cons s rest ih =>
    rw [insertSlot]
    obtain ⟨hs, hrest⟩ := List.pairwise_cons.mp hl
    by_cases hc : r.position_number ≤ s.position_number
    · rw [if_pos hc]
      refine List.pairwise_cons.mpr ⟨?_, hl⟩
      intro b hb
      rcases List.mem_cons.mp hb with rfl | hb'
      · exact hc
      · exact le_trans hc (hs b hb')
    · rw [if_neg hc]
      refine List.pairwise_cons.mpr ⟨?_, ih hrest⟩
      intro b hb
      have hb' := (insertSlot_perm r rest).mem_iff.mp hb
      rcases List.mem_cons.mp hb' with rfl | hb''
      · exact le_of_lt (lt_of_not_le hc)
      · exact hs b hb''

lemma sortBySlot_sorted (l : List AnalysisRow) :
    (sortBySlot l).Pairwise (fun a b => a.position_number ≤ b.position_number) := by
  induction l with
  | nil => simp [sortBySlot]
  | cons r rest ih => exact pairwise_insertSlot r (sortBySlot rest) ih

lemma find?_slot_min (p : AnalysisRow → Bool) :
    ∀ l : List AnalysisRow,
      l.Pairwise (fun a b => a.position_number ≤ b.position_number) →
      ∀ c, l.find? p = some c →
      ∀ r ∈ l, p r = true → c.position_number ≤ r.position_number := by
  intro l
  induction l with
  | nil =>
    intro _ c hc
    simp at hc
  | cons a rest ih =>
    intro hsort c hc r hr hpr
    obtain ⟨ha, hrest⟩ := List.pairwise_cons.mp hsort
    cases hpa : p a with
    | true =>
      rw [List.find?_cons_of_pos _ hpa] at hc
      obtain rfl : a = c := by injection hc
      rcases List.mem_cons.mp hr with rfl | hr'
      · exact le_refl _
      · exact ha r hr'
    | false =>
      rw [List.find?_cons_of_neg _ (by simp [hpa])] at hc
      rcases List.mem_cons.mp hr with rfl | hr'
      · rw [hpa] at hpr
        cases hpr
      · exact ih hrest c hc r hr' hpr

lemma find?_exists_of_mem (p : AnalysisRow → Bool) (l : List AnalysisRow)
    (a : AnalysisRow) (ha : a ∈ l) (hpa : p a = true) :
    ∃ c, l.find? p = some c := by
  induction l with
  | nil => cases ha
  | cons b rest ih =>
    cases hpb : p b with
    | true => exact ⟨b, List.find?_cons_of_pos _ hpb⟩
    | false =>
      rcases List.mem_cons.mp ha with rfl | ha'
      · rw [hpb] at hpa
        cases hpa
      · obtain ⟨c, hc⟩ := ih ha'
        exact ⟨c, by rw [List.find?_cons_of_neg _ (by simp [hpb])]; exact hc⟩

lemma argmaxPoints_cons (a : AnalysisRow) (l : List AnalysisRow) :
    argmaxPoints (a :: l) =
      match argmaxPoints l with
      | none => some a
      | some m => if m.gw_points > a.gw_points then some m else some a := rfl

lemma argmaxPoints_cons_isSome (b : AnalysisRow) (l : List AnalysisRow) :
    (argmaxPoints (b :: l)).isSome = true := by
  rw [argmaxPoints_cons]
  cases argmaxPoints l with
  | none => rfl
  | some m =>
    dsimp only
    split <;> rfl

lemma argmaxPoints_spec (l : List AnalysisRow) (h : l ≠ []) :
    ∃ m, argmaxPoints l = some m ∧ m ∈ l ∧ ∀ r ∈ l, r.gw_points ≤ m.gw_points := by
  induction l with
  | nil => exact absurd rfl h
  | cons a rest ih =>
    cases hrest : argmaxPoints rest with
    | none =>
      have hnil : rest = [] := by
        cases rest with
        | nil => rfl
        | cons b r' =>
          have hs := argmaxPoints_cons_isSome b r'
          rw [hrest] at hs
          simp at hs
      subst hnil
      exact ⟨a, by rw [argmaxPoints_cons, hrest], by simp, by simp⟩
    | some m =>
      have hne : rest ≠ [] := by
        intro h0
        rw [h0] at hrest
        simp [argmaxPoints] at hrest
      obtain ⟨m', hm', hmem, hub⟩ := ih hne
      rw [hrest] at hm'
      have hEq : m = m' := by injection hm'
      subst hEq
      by_cases hlt : m.gw_points > a.gw_points
      · refine ⟨m, ?_, List.mem_cons_of_mem _ hmem, ?_⟩
        · rw [argmaxPoints_cons, hrest]
          simp [hlt]
        · intro r hr
          rcases List.mem_cons.mp hr with h' | h'
          · exact h' ▸ le_of_lt hlt
          · exact hub r h'
      · refine ⟨a, ?_, List.mem_cons_self _ _, ?_⟩
        · rw [argmaxPoints_cons, hrest]
          simp [hlt]
        · intro r hr
          rcases List.mem_cons.mp hr with h' | h'
          · exact h' ▸ le_refl _
          · exact le_trans (hub r h') (not_lt.mp hlt)

lemma argmaxPair_cons (a : String × ℚ) (l : List (String × ℚ)) :
    argmaxPair (a :: l) =
      match argmaxPair l with
      | none => some a
      | some m => if m.2 > a.2 then some m else some a := rfl

lemma argmaxPair_cons_isSome (b : String × ℚ) (l : List (String × ℚ)) :
    (argmaxPair (b :: l)).isSome = true := by
  rw [argmaxPair_cons]
  cases argmaxPair l with
  | none => rfl
  | some m =>
    dsimp only
    split <;> rfl

lemma argmaxPair_spec (l : List (String × ℚ)) (h : l ≠ []) :
    ∃ p, argmaxPair l = some p ∧ p ∈ l ∧ ∀ q ∈ l, q.2 ≤ p.2 := by
  induction l with
  | nil => exact absurd rfl h
  | cons a rest ih =>
    cases hrest : argmaxPair rest with
    | none =>
      have hnil : rest = [] := by
        cases rest with
        | nil => rfl
        | cons b r' =>
          have hs := argmaxPair_cons_isSome b r'
          rw [hrest] at hs
          simp at hs
      subst hnil
      exact ⟨a, by rw [argmaxPair_cons, hrest], by simp, by simp⟩
    | some m =>
      have hne : rest ≠ [] := by
        intro h0
        rw [h0] at hrest
        simp [argmaxPair] at hrest
      obtain ⟨m', hm', hmem, hub⟩ := ih hne
      rw [hrest] at hm'
      have hEq : m = m' := by injection hm'
      subst hEq
      by_cases hlt : m.2 > a.2
      · refine ⟨m, ?_, List.mem_cons_of_mem _ hmem, ?_⟩
        · rw [argmaxPair_cons, hrest]
          simp [hlt]
        · intro q hq
          rcases List.mem_cons.mp hq with h' | h'
          · exact h' ▸ le_of_lt hlt
          · exact hub q h'
      · refine ⟨a, ?_, List.mem_cons_self _ _, ?_⟩
        · rw [argmaxPair_cons, hrest]
          simp [hlt]
        · intro q hq
          rcases List.mem_cons.mp hq with h' | h'
          · exact h' ▸ le_refl _
          · exact le_trans (hub q h') (not_lt.mp hlt)

lemma playerStats_fallback (df : List StatRow) (name : String) (gw : Nat)
    (hexact : df.filter (fun r => r.player_name == name && r.gw == gw) = [])
    (hhist : df.filter (fun r => r.player_name == name) ≠ []) :
    playerStats df name gw =
      fallbackDict (df.filter (fun r => r.player_name == name)) := by
  rw [playerStats, hexact]
  have : (df.filter (fun r => r.player_name == name)).isEmpty = false := by
    rw [List.isEmpty_eq_false]
    exact hhist
  simp [this]

lemma dget_fallback_points (h : List StatRow) :
    dget (fallbackDict h) "total_points" 0 =
      qmean (((sortGwDesc h).take 3).map (fun r => r.total_points)) := by
  simp [fallbackDict, dget, List.find?]

lemma dget_fallback_goals (h : List StatRow) :
    dget (fallbackDict h) "goals_scored" 0 =
      qmean (((sortGwDesc h).take 3).map (fun r => r.goals_scored)) := by
  simp [fallbackDict, dget, List.find?]

lemma dget_fallback_assists (h : List StatRow) :
    dget (fallbackDict h) "assists" 0 =
      qmean (((sortGwDesc h).take 3).map (fun r => r.assists)) := by
  simp [fallbackDict, dget, List.find?]

lemma dget_fallback_value (h : List StatRow) :
    dget (fallbackDict h) "value" 0 = lastCost h := by
  simp [fallbackDict, dget, List.find?]

theorem C2_counterexample :
    (reconcilePick dfC2 pmC2 [] 5 pickC2).gw_points = 5 ∧
    specFallbackPoints dfC2 "Beta" 5 = 0 ∧
    (reconcilePick dfC2 pmC2 [] 5 pickC2).value = 60 ∧
    specFallbackCost dfC2 "Beta" 5 = 40 ∧
    ((5 : ℚ) ≠ 0) ∧ ((60 : ℚ) ≠ 40) := by
  refine ⟨?_, ?_, ?_, ?_, ?_, ?_⟩ <;>
    · norm_num [reconcilePick, playerStats, resolveName, lookupPlayer,
        resolveTeam, POSITION_MAP, fallbackDict, dget, qmean, lastCost,
        sortGwDesc, insertGwDesc, specFallbackPoints, specFallbackCost,
        dfC2, pmC2, pickC2, List.filter, List.find?]
      try decide

theorem C2_fallback_uses_all_history (df : List StatRow)
    (pm : List (Nat × PlayerInfo)) (teams : List (Nat × String))
    (gw : Nat) (pick : Pick)
    (hexact : df.filter (fun r =>
      r.player_name == resolveName pm pick.element && r.gw == gw) = [])
    (hhist : df.filter (fun r => r.player_name == resolveName pm pick.element) ≠ []) :
    (reconcilePick df pm teams gw pick).gw_points =
      qmean (((sortGwDesc (df.filter (fun r =>
        r.player_name == resolveName pm pick.element))).take 3).map
          (fun r => r.total_points)) ∧
    (reconcilePick df pm teams gw pick).goals =
      qmean (((sortGwDesc (df.filter (fun r =>
        r.player_name == resolveName pm pick.element))).take 3).map
          (fun r => r.goals_scored)) ∧
    (reconcilePick df pm teams gw pick).assists =
      qmean (((sortGwDesc (df.filter (fun r =>
        r.player_name == resolveName pm pick.element))).take 3).map
          (fun r => r.assists)) ∧
    (reconcilePick df pm teams gw pick).value =
      lastCost (df.filter (fun r => r.player_name == resolveName pm pick.element)) ∧
    (sortGwDesc (df.filter (fun r =>
      r.player_name == resolveName pm pick.element))).Perm
        (df.filter (fun r => r.player_name == resolveName pm pick.element)) ∧
    (∀ a ∈ (sortGwDesc (df.filter (fun r =>
        r.player_name == resolveName pm pick.element))).take 3,
      ∀ b ∈ (sortGwDesc (df.filter (fun r =>
        r.player_name == resolveName pm pick.element))).drop 3,
      b.gw ≤ a.gw) := by
  have hstats := playerStats_fallback df (resolveName pm pick.element) gw hexact hhist
  have e1 : (reconcilePick df pm teams gw pick).gw_points =
      dget (playerStats df (resolveName pm pick.element) gw) "total_points" 0 := rfl
  have e2 : (reconcilePick df pm teams gw pick).goals =
      dget (playerStats df (resolveName pm pick.element) gw) "goals_scored" 0 := rfl
  have e3 : (reconcilePick df pm teams gw pick).assists =
      dget (playerStats df (resolveName pm pick.element) gw) "assists" 0 := rfl
  have e5 : (reconcilePick df pm teams gw pick).value =
      dget (playerStats df (resolveName pm pick.element) gw) "value" 0 := rfl
  refine ⟨?_, ?_, ?_, ?_, sortGwDesc_perm _, sortGwDesc_take_drop _ 3⟩
  · rw [e1, hstats, dget_fallback_points]
  · rw [e2, hstats, dget_fallback_goals]
  · rw [e3, hstats, dget_fallback_assists]
  · rw [e5, hstats, dget_fallback_value]

theorem C2_fallback_witness :
    (dfC2.filter (fun r =>
      r.player_name == resolveName pmC2 pickC2.element && r.gw == 5) = []) ∧
    (dfC2.filter (fun r => r.player_name == resolveName pmC2 pickC2.element) ≠ []) ∧
    ((reconcilePick dfC2 pmC2 [] 5 pickC2).gw_points =
      qmean (((sortGwDesc (dfC2.filter (fun r =>
        r.player_name == resolveName pmC2 pickC2.element))).take 3).map
          (fun r => r.total_points)) ∧
     (reconcilePick dfC2 pmC2 [] 5 pickC2).goals =
      qmean (((sortGwDesc (dfC2.filter (fun r =>
        r.player_name == resolveName pmC2 pickC2.element))).take 3).map
          (fun r => r.goals_scored)) ∧
     (reconcilePick dfC2 pmC2 [] 5 pickC2).assists =
      qmean (((sortGwDesc (dfC2.filter (fun r =>
        r.player_name == resolveName pmC2 pickC2.element))).take 3).map
          (fun r => r.assists)) ∧
     (reconcilePick dfC2 pmC2 [] 5 pickC2).value =
      lastCost (dfC2.filter (fun r =>
        r.player_name == resolveName pmC2 pickC2.element)) ∧
     (sortGwDesc (dfC2.filter (fun r =>
       r.player_name == resolveName pmC2 pickC2.element))).Perm
         (dfC2.filter (fun r => r.player_name == resolveName pmC2 pickC2.element)) ∧
     (∀ a ∈ (sortGwDesc (dfC2.filter (fun r =>
         r.player_name == resolveName pmC2 pickC2.element))).take 3,
       ∀ b ∈ (sortGwDesc (dfC2.filter (fun r =>
         r.player_name == resolveName pmC2 pickC2.element))).drop 3,
       b.gw ≤ a.gw)) :=
  ⟨by decide, by decide,
    C2_fallback_uses_all_history dfC2 pmC2 [] 5 pickC2 (by decide) (by decide)⟩

lemma rowsC3_eval : rowsC3 =
    [mkRow 1 "Cap" "MID" 1 true 2 5, mkRow 2 "Max" "MID" 2 false 1 6,
     mkRow 3 "F3" "MID" 3 false 1 0, mkRow 4 "F4" "MID" 4 false 1 0,
     mkRow 5 "F5" "MID" 5 false 1 0, mkRow 6 "F6" "MID" 6 false 1 0,
     mkRow 7 "F7" "MID" 7 false 1 0, mkRow 8 "F8" "MID" 8 false 1 0,
     mkRow 9 "F9" "MID" 9 false 1 0, mkRow 10 "F10" "MID" 10 false 1 0,
     mkRow 11 "F11" "MID" 11 false 1 0, mkRow 12 "F12" "MID" 12 false 0 0,
     mkRow 13 "F13" "MID" 13 false 0 0, mkRow 14 "F14" "MID" 14 false 0 0,
     mkRow 15 "F15" "MID" 15 false 0 0] := by
  norm_num [rowsC3, picksC3, dfC3, pmC3, mkRow, reconcilePick, playerStats,
    resolveName, lookupPlayer, resolveTeam, POSITION_MAP, rowDict, zeroDict,
    dget, goal_contributions, sortBySlot, insertSlot, List.filter]
  decide

theorem C3_counterexample :
    analyzeTeam dfC3 pmC3 [] 5 picksC3 = Except.ok rowsC3 ∧
    picksC3.length = 15 ∧
    captainDiag rowsC3 = some { optimal := false, points_diff := 2 } ∧
    ((rowsC3.filter (fun r => r.is_captain)).map effPoints = [10]) ∧
    (∀ r ∈ rowsC3, effPoints r ≤ 10) := by
  refine ⟨rfl, rfl, ?_, ?_, ?_⟩
  · rw [rowsC3_eval]
    norm_num [captainDiag, argmaxPoints, mkRow, List.find?, effPoints]
    try decide
  · rw [rowsC3_eval]
    norm_num [mkRow, List.filter, effPoints]
  · rw [rowsC3_eval]
    intro r hr
    fin_cases hr <;> norm_num [mkRow, effPoints]

theorem C3_captain_compared_by_name (rows : List AnalysisRow)
    (cap : AnalysisRow)
    (hcap : rows.find? (fun r => r.is_captain) = some cap) :
    ∃ hs, hs ∈ rows ∧ (∀ r ∈ rows, r.gw_points ≤ hs.gw_points) ∧
      captainDiag rows =
        some (if hs.player_name == cap.player_name then ⟨true, 0⟩
          else ⟨false, hs.gw_points * 2 - cap.gw_points * cap.multiplier⟩) := by
  have hne : rows ≠ [] := by
    intro h0
    rw [h0] at hcap
    simp at hcap
  obtain ⟨m, hm, hmem, hub⟩ := argmaxPoints_spec rows hne
  refine ⟨m, hmem, hub, ?_⟩
  simp only [captainDiag, hcap, hm]
  split <;> rfl

theorem C3_captain_name_witness :
    (rowsC3w.find? (fun r => r.is_captain) =
      some (mkRow 21 "CapW" "MID" 1 true 2 4)) ∧
    (∃ hs, hs ∈ rowsC3w ∧ (∀ r ∈ rowsC3w, r.gw_points ≤ hs.gw_points) ∧
      captainDiag rowsC3w =
        some (if hs.player_name == (mkRow 21 "CapW" "MID" 1 true 2 4).player_name
          then ⟨true, 0⟩
          else ⟨false, hs.gw_points * 2 -
            (mkRow 21 "CapW" "MID" 1 true 2 4).gw_points *
              (mkRow 21 "CapW" "MID" 1 true 2 4).multiplier⟩)) ∧
    captainDiag rowsC3w = some { optimal := false, points_diff := 4 } :=
  ⟨by decide,
   C3_captain_compared_by_name rowsC3w _ (by decide),
   by
    norm_num [rowsC3w, captainDiag, argmaxPoints, mkRow, List.find?]
    try decide⟩

lemma rowsC6_eval : rowsC6 =
    [mkRow 1 "Cap" "GK" 1 true 2 5, mkRow 2 "Max" "DEF" 2 false 1 6,
     mkRow 3 "F3" "MID" 3 false 1 0, mkRow 4 "F4" "MID" 4 false 1 0,
     mkRow 5 "F5" "MID" 5 false 1 0, mkRow 6 "F6" "MID" 6 false 1 0,
     mkRow 7 "F7" "MID" 7 false 1 0, mkRow 8 "F8" "MID" 8 false 1 0,
     mkRow 9 "F9" "MID" 9 false 1 0, mkRow 10 "F10" "MID" 10 false 1 0,
     mkRow 11 "F11" "MID" 11 false 1 0, mkRow 12 "F12" "MID" 12 false 0 0,
     mkRow 13 "F13" "MID" 13 false 0 0, mkRow 14 "F14" "MID" 14 false 0 0,
     mkRow 15 "F15" "MID" 15 false 0 0] := by
  norm_num [rowsC6, picksC6, picksC3, dfC3, pmC3, mkRow, reconcilePick,
    playerStats, resolveName, lookupPlayer, resolveTeam, POSITION_MAP,
    rowDict, zeroDict, dget, goal_contributions, sortBySlot, insertSlot,
    List.filter]
  decide

lemma strLt_DEF_MID : strLt "DEF" "MID" = true := rfl

lemma strLt_GK_DEF : strLt "GK" "DEF" = false := rfl

lemma strLt_GK_MID : strLt "GK" "MID" = true := rfl

lemma insertKey_ne_nil (k : String) (l : List String) : insertKey k l ≠ [] := by
  cases l with
  | nil => simp [insertKey]
  | cons s rest =>
    rw [insertKey]
    split
    · simp
    · split <;> simp

lemma groupKeys_ne_nil (rows : List AnalysisRow) (h : rows ≠ []) :
    groupKeys rows ≠ [] := by
  cases rows with
  | nil => exact absurd rfl h
  | cons r rest => exact insertKey_ne_nil _ _

theorem C6_counterexample :
    analyzeTeam dfC3 pmC3 [] 5 picksC6 = Except.ok rowsC6 ∧
    pointsByPos rowsC6 = [("DEF", 6), ("GK", 5), ("MID", 0)] ∧
    bestPosition rowsC6 = some "DEF" ∧
    specEffPosSum rowsC6 "GK" = 10 ∧
    specEffPosSum rowsC6 "DEF" = 6 ∧
    ((6 : ℚ) < 10) ∧ ("DEF" ≠ "GK") := by
  have hkeys : groupKeys rowsC6 = ["DEF", "GK", "MID"] := by
    rw [rowsC6_eval]
    rfl
  have hfDEF : rowsC6.filter (fun r => r.position == "DEF") =
      [mkRow 2 "Max" "DEF" 2 false 1 6] := by
    rw [rowsC6_eval]
    decide
  have hfGK : rowsC6.filter (fun r => r.position == "GK") =
      [mkRow 1 "Cap" "GK" 1 true 2 5] := by
    rw [rowsC6_eval]
    decide
  have hfMID : (rowsC6.filter (fun r => r.position == "MID")).map
      (fun r => r.gw_points) = [0, 0, 0, 0, 0, 0, 0, 0, 0, 0, 0, 0, 0] := by
    rw [rowsC6_eval]
    decide
  have hDEF : posSum rowsC6 "DEF" = 6 := by
    rw [posSum, hfDEF]
    norm_num [mkRow]
  have hGK : posSum rowsC6 "GK" = 5 := by
    rw [posSum, hfGK]
    norm_num [mkRow]
  have hMID : posSum rowsC6 "MID" = 0 := by
    rw [posSum, hfMID]
    norm_num
  have hpbp : pointsByPos rowsC6 = [("DEF", 6), ("GK", 5), ("MID", 0)] := by
    rw [pointsByPos, hkeys]
    simp [hDEF, hGK, hMID]
  refine ⟨rfl, hpbp, ?_, ?_, ?_, by norm_num, by decide⟩
  · rw [bestPosition, hpbp]
    norm_num [argmaxPair]
  · rw [specEffPosSum, hfGK]
    norm_num [effPoints, mkRow]
  · rw [specEffPosSum, hfDEF]
    norm_num [effPoints, mkRow]

theorem C6_best_position_of_base_sums (rows : List AnalysisRow)
    (h : rows ≠ []) :
    ∃ k, bestPosition rows = some k ∧ k ∈ groupKeys rows ∧
      (∀ p ∈ pointsByPos rows, p.2 ≤ posSum rows k) ∧
      (∀ p ∈ pointsByPos rows, p.2 = posSum rows p.1) := by
  have hg : groupKeys rows ≠ [] := groupKeys_ne_nil rows h
  have hpb : pointsByPos rows ≠ [] := by
    rw [pointsByPos]
    simpa using hg
  obtain ⟨p, hp, hpmem, hub⟩ := argmaxPair_spec _ hpb
  rw [pointsByPos] at hpmem
  obtain ⟨k, hk, hkeq⟩ := List.mem_map.mp hpmem
  subst hkeq
  refine ⟨k, ?_, hk, ?_, ?_⟩
  · rw [bestPosition, hp]
    rfl
  · intro q hq
    exact hub q hq
  · intro q hq
    rw [pointsByPos] at hq
    obtain ⟨k', _, hk'eq⟩ := List.mem_map.mp hq
    subst hk'eq
    rfl

theorem C6_best_position_witness :
    rowsC6w ≠ [] ∧
    (∃ k, bestPosition rowsC6w = some k ∧ k ∈ groupKeys rowsC6w ∧
      (∀ p ∈ pointsByPos rowsC6w, p.2 ≤ posSum rowsC6w k) ∧
      (∀ p ∈ pointsByPos rowsC6w, p.2 = posSum rowsC6w p.1)) ∧
    pointsByPos rowsC6w = [("DEF", 14), ("GK", 2), ("MID", 10)] ∧
    bestPosition rowsC6w = some "DEF" := by
  have hkeys : groupKeys rowsC6w = ["DEF", "GK", "MID"] := by rfl
  have hfDEF : rowsC6w.filter (fun r => r.position == "DEF") =
      [mkRow 32 "D1" "DEF" 2 false 1 8, mkRow 33 "D2" "DEF" 3 false 1 6] := by
    decide
  have hfGK : rowsC6w.filter (fun r => r.position == "GK") =
      [mkRow 31 "G" "GK" 1 false 1 2] := by
    decide
  have hfMID : rowsC6w.filter (fun r => r.position == "MID") =
      [mkRow 34 "M" "MID" 4 false 1 10] := by
    decide
  have hDEF : posSum rowsC6w "DEF" = 14 := by
    rw [posSum, hfDEF]
    norm_num [mkRow]
  have hGK : posSum rowsC6w "GK" = 2 := by
    rw [posSum, hfGK]
    norm_num [mkRow]
  have hMID : posSum rowsC6w "MID" = 10 := by
    rw [posSum, hfMID]
    norm_num [mkRow]
  have hpbp : pointsByPos rowsC6w = [("DEF", 14), ("GK", 2), ("MID", 10)] := by
    rw [pointsByPos, hkeys]
    simp [hDEF, hGK, hMID]
  refine ⟨by decide, C6_best_position_of_base_sums rowsC6w (by decide), hpbp, ?_⟩
  rw [bestPosition, hpbp]
  norm_num [argmaxPair]

theorem C10_duplicate_captains_min_slot (rows : List AnalysisRow)
    (c1 c2 : AnalysisRow) (h1 : c1 ∈ rows) (h2 : c2 ∈ rows)
    (hc1 : c1.is_captain = true) (hc2 : c2.is_captain = true)
    (hne : c1 ≠ c2) :
    ∃ c, captainSelect rows = some c ∧ c.is_captain = true ∧
      (∀ r ∈ rows, r.is_captain = true → c.position_number ≤ r.position_number) ∧
      ∃ v, captainDiag (sortBySlot rows) = some v := by
  have hmem : c1 ∈ sortBySlot rows := (sortBySlot_perm rows).mem_iff.mpr h1
  obtain ⟨c, hc⟩ :=
    find?_exists_of_mem (fun r => r.is_captain) (sortBySlot rows) c1 hmem hc1
  have hcsel : captainSelect rows = some c := hc
  refine ⟨c, hcsel, List.find?_some hc, ?_, ?_⟩
  · intro r hr hpr
    exact find?_slot_min (fun r => r.is_captain) (sortBySlot rows)
      (sortBySlot_sorted rows) c hc r ((sortBySlot_perm rows).mem_iff.mpr hr) hpr
  · have hne' : sortBySlot rows ≠ [] := by
      intro h0
      rw [h0] at hmem
      cases hmem
    obtain ⟨m, hm, _, _⟩ := argmaxPoints_spec _ hne'
    refine ⟨if m.player_name == c.player_name then ⟨true, 0⟩
      else ⟨false, m.gw_points * 2 - c.gw_points * c.multiplier⟩, ?_⟩
    simp only [captainDiag, hc, hm]
    split <;> rfl

theorem C10_duplicate_captains_witness :
    ((mkRow 41 "A" "MID" 9 true 1 3) ∈ rowsC10 ∧
     (mkRow 42 "B" "MID" 4 true 1 7) ∈ rowsC10 ∧
     (mkRow 41 "A" "MID" 9 true 1 3).is_captain = true ∧
     (mkRow 42 "B" "MID" 4 true 1 7).is_captain = true ∧
     (mkRow 41 "A" "MID" 9 true 1 3) ≠ (mkRow 42 "B" "MID" 4 true 1 7)) ∧
    (∃ c, captainSelect rowsC10 = some c ∧ c.is_captain = true ∧
      (∀ r ∈ rowsC10, r.is_captain = true →
        c.position_number ≤ r.position_number) ∧
      ∃ v, captainDiag (sortBySlot rowsC10) = some v) ∧
    captainSelect rowsC10 = some (mkRow 42 "B" "MID" 4 true 1 7) :=
  ⟨⟨by decide, by decide, by decide, by decide, by decide⟩,
   C10_duplicate_captains_min_slot rowsC10
     (mkRow 41 "A" "MID" 9 true 1 3) (mkRow 42 "B" "MID" 4 true 1 7)
     (by decide) (by decide) (by decide) (by decide) (by decide),
   by decide⟩

theorem C7_underperformer_witness :
    starters rowsC7 ≠ [] ∧
    meanStarterPoints rowsC7 = 10 ∧
    (mkRow 53 "C" "MID" 3 false 1 7) ∉ underperformers rowsC7 := by
  have hst : starters rowsC7 = rowsC7 := by decide
  have hmean : meanStarterPoints rowsC7 = 10 := by
    rw [meanStarterPoints, hst]
    norm_num [rowsC7, mkRow, qmean]
  refine ⟨by decide, hmean, ?_⟩
  refine (C7_underperformer_boundary rowsC7
    (mkRow 53 "C" "MID" 3 false 1 7) (by decide)).2 ?_
  rw [hmean]
  norm_num [mkRow]

theorem C8_optimal_lineup_witness :
    (benchOf rowsC8 ≠ [] ∧ starters rowsC8 ≠ []) ∧
    (∃ bp sp,
      maxPoints (benchOf rowsC8) = some bp ∧
      minPoints (starters rowsC8) = some sp ∧
      (∃ r ∈ benchOf rowsC8, r.gw_points = bp) ∧
      (∀ r ∈ benchOf rowsC8, r.gw_points ≤ bp) ∧
      (∃ r ∈ starters rowsC8, r.gw_points = sp) ∧
      (∀ r ∈ starters rowsC8, sp ≤ r.gw_points) ∧
      (bp > sp → lineupCheck rowsC8 = some ⟨true, bp - sp⟩) ∧
      (¬ bp > sp → lineupCheck rowsC8 = some ⟨false, 0⟩)) ∧
    lineupCheck rowsC8 = some { suboptimal := true, points_diff := 4 } ∧
    lineupCheck rowsC8b = some { suboptimal := false, points_diff := 0 } := by
  refine ⟨⟨by decide, by decide⟩,
    C8_optimal_lineup_check rowsC8 (by decide) (by decide), ?_, ?_⟩
  · have hmax : maxPoints (benchOf rowsC8) = some 9 := by decide
    have hmin : minPoints (starters rowsC8) = some 5 := by decide
    simp only [lineupCheck, hmax, hmin]
    norm_num
  · have hmax : maxPoints (benchOf rowsC8b) = some 5 := by decide
    have hmin : minPoints (starters rowsC8b) = some 5 := by decide
    simp only [lineupCheck, hmax, hmin]
    norm_num

theorem C9_no_history_witness :
    (∀ r ∈ dfC9, r.player_name ≠ resolveName pmC9 pickC9.element) ∧
    (reconcilePick dfC9 pmC9 [] 7 pickC9).value = 0 ∧
    (reconcilePick dfC9 pmC9 [] 7 pickC9).gw_points = 0 ∧
    valueEfficiency (reconcilePick dfC9 pmC9 [] 7 pickC9) = 0 := by
  have h : ∀ r ∈ dfC9, r.player_name ≠ resolveName pmC9 pickC9.element := by
    decide
  have hfull := C9_no_history_zeroed_and_finite dfC9 pmC9 [] 7 pickC9 h
  exact ⟨h, hfull.2.2.2.2.1, hfull.1, hfull.2.2.2.2.2.2⟩

end FplDash
